import Mathlib

/-!
# PhotoApp: FileValidation and GuestChallengeView

A shallow embedding of `frontend/src/components/FileValidation.jsx` and
`frontend/src/pages/GuestChallengeView.jsx`.

React state slots become fields of a record, a state setter becomes a record
update, and an asynchronous handler is a function of the state it starts in
and of the outcome of the one request it awaits.  Everything the handlers do
to the outside world (requests sent, alerts shown, callbacks invoked) is
returned next to the new state.
-/

namespace PhotoApp

/-! ## JavaScript values used by the two components -/

/-- Truthiness of a value that is a string, `null` or `undefined`:
only a non-empty string is truthy. -/
def truthy : Option String → Bool
  | some s => s != ""
  | none => false

/-- The operator `a || b` on values that are strings, `null` or `undefined`. -/
def jsOr (a b : Option String) : Option String :=
  if truthy a then a else b

/-- The method `s.startsWith(p)`. -/
def startsWith (s p : String) : Bool :=
  p.data.isPrefixOf s.data

/-- The metadata of a browser `File` that the components read. -/
structure File where
  /-- The declared media type, `file.type`. -/
  type : String
  /-- The size in bytes, `file.size`. -/
  size : Nat
deriving DecidableEq, Repr

/-! ## FileValidation.jsx -/

/-- The props `maxImageSizeMB` and `maxVideoSizeMB` of `FileValidation`. -/
structure Props where
  maxImageSizeMB : Nat
  maxVideoSizeMB : Nat
deriving DecidableEq, Repr

/-- The default props: `maxImageSizeMB = 15, maxVideoSizeMB = 50`. -/
def defaultProps : Props := { maxImageSizeMB := 15, maxVideoSizeMB := 50 }

/-- The constant `allowedFileTypes`. -/
def allowedFileTypes : List String :=
  ["image/jpeg", "image/png", "image/gif", "image/webp", "image/heic", "image/heif",
   "video/mp4", "video/webm", "video/avi", "video/quicktime"]

/-- The function `validateFile`: the returned boolean, paired with the value
it passes to `setErrorMessage`. -/
def validateFile (props : Props) (file : File) : Bool × String :=
  let fileType := if startsWith file.type "image/" then "image" else "video"
  if !allowedFileTypes.contains file.type then
    (false, "Unsupported file type. Please upload a valid image or video.")
  else
    let maxFileSizeBytes :=
      if fileType == "image" then props.maxImageSizeMB * 1024 * 1024
      else props.maxVideoSizeMB * 1024 * 1024
    if file.size > maxFileSizeBytes then
      let maxSize := if fileType == "image" then props.maxImageSizeMB else props.maxVideoSizeMB
      (false, "File size too large. Max allowed size for " ++ fileType ++ "s is "
        ++ toString maxSize ++ " MB.")
    else
      (true, "")

/-- The effect of `FileValidation`, run when the `file` prop changes:
`if (file && validateFile(file)) handleFileUpload(file)`.  Returns the
component's `errorMessage` afterwards and the files handed to
`handleFileUpload`. -/
def fileValidationEffect (props : Props) (file : Option File) (errorMessage : String) :
    String × List File :=
  match file with
  | none => (errorMessage, [])
  | some f =>
    let r := validateFile props f
    if r.1 then (r.2, [f]) else (r.2, [])

/-! ## GuestChallengeView.jsx: data -/

/-- A challenge object as the backend and the socket deliver it. -/
structure Challenge where
  /-- The field `_id`, read by the `challenge_deleted` handler and as React key. -/
  _id : String
  title : String
deriving DecidableEq, Repr

/-- The payload of a `challenge_deleted` event; the handler reads its `id`. -/
structure DeletedChallenge where
  id : String
deriving DecidableEq, Repr

/-- The value stored by `setSelectedChallenge` in `handleFileSelect`:
`{ ...challenge, imageFile, imageUrl }`. -/
structure SelectedChallenge where
  _id : String
  title : String
  imageFile : File
  imageUrl : String
deriving DecidableEq, Repr

/-- What the component reads from its surroundings: `user?._id`,
`user?.albumId`, the `token` query parameter and `BASE_URL`.  For the first
three `none` stands for `undefined` / `null`. -/
structure Env where
  userId : Option String
  albumId : Option String
  albumToken : Option String
  BASE_URL : String
deriving DecidableEq, Repr

/-- The constant `CHALLENGES_ENDPOINT`. -/
def CHALLENGES_ENDPOINT (env : Env) : String := env.BASE_URL ++ "/challenges"

/-- The two `localStorage` items the component uses, by the key that is
interpolated into their names.  `localStorage` holds strings; the embedding
keeps for `challenges_KEY` the list that `JSON.parse` returns for it (the
code stores `JSON.stringify` of a list there) and for `lastFetch_KEY` the
number it denotes.  `none` is the `null` that `getItem` returns for an item
that is not stored. -/
structure LocalStorage where
  /-- The item named `challenges_KEY`. -/
  challenges_ : String → Option (List Challenge)
  /-- The item named `lastFetch_KEY`. -/
  lastFetch_ : String → Option Int

/-- The call `setItem` on the item `challenges_KEY`. -/
def LocalStorage.setChallenges (ls : LocalStorage) (key : String) (v : List Challenge) :
    LocalStorage :=
  { ls with challenges_ := fun k => if k = key then some v else ls.challenges_ k }

/-- The call `setItem` on the item `lastFetch_KEY`. -/
def LocalStorage.setLastFetch (ls : LocalStorage) (key : String) (v : Int) : LocalStorage :=
  { ls with lastFetch_ := fun k => if k = key then some v else ls.lastFetch_ k }

/-- The state the component works on: its six `useState` slots, followed by
the parts of the browser it acts on (`localStorage`, the sockets that are
connected, the interval timers that are scheduled). -/
structure State where
  challenges : List Challenge
  selectedChallenge : Option SelectedChallenge
  errorMessage : String
  isPopupVisible : Bool
  pendingFile : Option File
  socket : Option Nat
  localStorage : LocalStorage
  /-- Handles of the sockets created by `io` and not yet disconnected. -/
  connected : List Nat
  /-- Ids of the timers created by `setInterval` and not yet cleared. -/
  intervals : List Nat

/-- The state right after the first render: every slot holds its `useState`
initial value; `localStorage` is whatever the browser profile holds. -/
def initialState (ls : LocalStorage) : State :=
  { challenges := [], selectedChallenge := none, errorMessage := "", isPopupVisible := false,
    pendingFile := none, socket := none, localStorage := ls, connected := [], intervals := [] }

/-- A template literal renders `null` as the text `null`. -/
def render : Option String → String
  | some s => s
  | none => "null"

/-- The numeric value of a stored timestamp in `now - lastFetch`; `null`
converts to `0`. -/
def toNumber : Option Int → Int
  | some n => n
  | none => 0

/-- The local `cacheKey` of `fetchChallenges`, as interpolated into the item
names: `albumId || albumToken`. -/
def cacheKey (env : Env) : String := render (jsOr env.albumId env.albumToken)

/-! ## GuestChallengeView.jsx: live updates -/

/-- The handler of `challenge_created`:
`setChallenges(prev => [...prev, newChallenge])`. -/
def onChallengeCreated (newChallenge : Challenge) (s : State) : State :=
  { s with challenges := s.challenges ++ [newChallenge] }

/-- The handler of `challenge_deleted`:
`setChallenges(prev => prev.filter(challenge => challenge._id !== deletedChallenge.id))`. -/
def onChallengeDeleted (deletedChallenge : DeletedChallenge) (s : State) : State :=
  { s with challenges :=
      s.challenges.filter (fun challenge => challenge._id != deletedChallenge.id) }

/-! ## GuestChallengeView.jsx: reconciliation -/

/-- The arguments of the `axios.get` call of `fetchChallenges`. -/
structure GetRequest where
  url : String
  /-- The entry `params: { albumId }`, when present. -/
  params : Option String
  withCredentials : Bool
deriving DecidableEq, Repr

/-- The `axios.get` call that `fetchChallenges` makes. -/
def getRequest (env : Env) : GetRequest :=
  { url := if truthy env.albumToken
      then CHALLENGES_ENDPOINT env ++ "/public/" ++ render env.albumToken
      else CHALLENGES_ENDPOINT env
    params := if truthy env.albumId then env.albumId else none
    withCredentials := truthy env.albumId }

/-- The function `fetchChallenges(force)`, called at time `now` (the value of
`Date.now()`), where `res` is how the awaited `axios.get` ends if it is made:
`.ok data` with the response body, or `.error` when it throws.  Returns the
state afterwards and the requests sent. -/
def fetchChallenges (env : Env) (force : Bool) (now : Int)
    (res : Except String (List Challenge)) (s : State) : State × List GetRequest :=
  let cachedChallenges := s.localStorage.challenges_ (cacheKey env)
  let lastFetch := s.localStorage.lastFetch_ (cacheKey env)
  let fetched : State × List GetRequest :=
    match res with
    | .ok data =>
      ({ s with
          challenges := data
          localStorage :=
            (s.localStorage.setChallenges (cacheKey env) data).setLastFetch (cacheKey env) now },
        [getRequest env])
    | .error _ =>
      ({ s with errorMessage := "Error loading challenges." }, [getRequest env])
  match cachedChallenges with
  | some cached =>
    if !force && decide (now - toNumber lastFetch < 60000) then
      ({ s with challenges := cached }, [])
    else fetched
  | none => fetched

/-! ## GuestChallengeView.jsx: upload -/

/-- The function `handleFileSelect(event, challenge)`, where `files` is
`event.target.files` and `createObjectURL` is `URL.createObjectURL`. -/
def handleFileSelect (createObjectURL : File → String) (files : List File)
    (challenge : Challenge) (s : State) : State :=
  match files with
  | [] => s
  | imageFile :: _ =>
    { s with
        selectedChallenge := some
          { _id := challenge._id, title := challenge.title, imageFile := imageFile,
            imageUrl := createObjectURL imageFile }
        pendingFile := some imageFile
        isPopupVisible := true }

/-- The `axios.post` call of `onUsernameSubmit`: the five form fields, the
`token` parameter and the `withCredentials` flag. -/
structure UploadRequest where
  url : String
  mediaFile : File
  albumId : String
  userId : String
  challengeTitle : String
  uploaderUsername : String
  /-- The entry `params: { token }`, when present. -/
  params : Option String
  withCredentials : Bool
deriving DecidableEq, Repr

/-- What `onUsernameSubmit` leaves behind: the state, the uploads posted and
the alerts shown. -/
structure SubmitResult where
  state : State
  posted : List UploadRequest
  alerts : List String

/-- The function `onUsernameSubmit(username)`, where `res` is how the awaited
`axios.post` ends if it is made. -/
def onUsernameSubmit (env : Env) (username : String) (res : Except String Unit)
    (s : State) : SubmitResult :=
  match s.selectedChallenge, s.pendingFile with
  | some selectedChallenge, some pendingFile =>
    if !truthy (jsOr env.albumId env.albumToken) then { state := s, posted := [], alerts := [] }
    else
      let request : UploadRequest :=
        { url := env.BASE_URL ++ "/api/album-media/upload-media"
          mediaFile := pendingFile
          albumId := render (jsOr env.albumId (some "public"))
          userId := render (jsOr env.userId (some "guest"))
          challengeTitle := selectedChallenge.title
          uploaderUsername := username
          params := if truthy env.albumToken then env.albumToken else none
          withCredentials := truthy env.albumId }
      match res with
      | .ok _ =>
        { state := { s with isPopupVisible := false, selectedChallenge := none,
                            pendingFile := none }
          posted := [request]
          alerts := ["Image uploaded successfully!"] }
      | .error _ =>
        { state := { s with errorMessage := "Upload failed." }
          posted := [request]
          alerts := [] }
  | _, _ => { state := s, posted := [], alerts := [] }

/-! ## GuestChallengeView.jsx: mount and teardown -/

/-- A function that an effect callback may return, which React runs when the
component is torn down. -/
inductive Cleanup where
  /-- The function `() => newSocket.disconnect()`. -/
  | disconnect (newSocket : Nat)
  /-- The function `() => clearInterval(intervalId)`. -/
  | clearInterval (intervalId : Nat)
deriving DecidableEq, Repr

/-- The callback `initializeSocket`, where `newSocket` is the handle that
`io(BASE_URL)` returns.  It registers `onChallengeCreated` and
`onChallengeDeleted` on the socket, stores it with `setSocket`, and returns
the function that disconnects it; when a socket is already stored it returns
nothing.  The `join_album` message sent on `connect` goes to the server and
leaves this state as it is. -/
def initializeSocket (newSocket : Nat) (s : State) : State × Option Cleanup :=
  if s.socket.isSome then (s, none)
  else
    ({ s with socket := some newSocket, connected := newSocket :: s.connected },
      some (Cleanup.disconnect newSocket))

/-- The first effect: `if (albumId || albumToken) { initializeSocket(); }`.
The callback has no `return`, so what `initializeSocket` returns is dropped
and the effect hands React no cleanup. -/
def socketEffect (env : Env) (newSocket : Nat) (s : State) : State × Option Cleanup :=
  if truthy (jsOr env.albumId env.albumToken) then ((initializeSocket newSocket s).1, none)
  else (s, none)

/-- The second effect: `fetchChallenges(true)`, then `setInterval`, whose id
is `intervalId`; it returns `() => clearInterval(intervalId)`. -/
def pollEffect (env : Env) (now : Int) (res : Except String (List Challenge))
    (intervalId : Nat) (s : State) : State × Option Cleanup :=
  let s1 := (fetchChallenges env true now res s).1
  ({ s1 with intervals := intervalId :: s1.intervals }, some (Cleanup.clearInterval intervalId))

/-- Running what an effect returned. -/
def runCleanup (c : Option Cleanup) (s : State) : State :=
  match c with
  | none => s
  | some (Cleanup.disconnect newSocket) =>
    { s with connected := s.connected.filter (fun k => k != newSocket) }
  | some (Cleanup.clearInterval intervalId) =>
    { s with intervals := s.intervals.filter (fun k => k != intervalId) }

/-- Mounting the component: both effects run in source order; React keeps
what each returned. -/
def mount (env : Env) (newSocket : Nat) (now : Int) (res : Except String (List Challenge))
    (intervalId : Nat) (s : State) : State × List (Option Cleanup) :=
  let r1 := socketEffect env newSocket s
  let r2 := pollEffect env now res intervalId r1.1
  (r2.1, [r1.2, r2.2])

/-- Teardown: React runs the cleanup of each effect. -/
def unmount (cleanups : List (Option Cleanup)) (s : State) : State :=
  cleanups.foldl (fun acc c => runCleanup c acc) s

/-! ## Event traces of the challenge list -/

/-- The ids of a list of challenges are pairwise distinct. -/
def idsDistinct (l : List Challenge) : Prop := (l.map (fun c => c._id)).Nodup

instance (l : List Challenge) : Decidable (idsDistinct l) := by
  unfold idsDistinct; infer_instance

/-- The three things that write the in-memory list. -/
inductive Event where
  /-- A `challenge_created` push event. -/
  | created (newChallenge : Challenge)
  /-- A `challenge_deleted` push event. -/
  | deleted (deletedChallenge : DeletedChallenge)
  /-- A call of `fetchChallenges(force)` at time `now` whose request, if made,
  succeeds with `payload`. -/
  | reconciled (force : Bool) (now : Int) (payload : List Challenge)

/-- The state after one event. -/
def step (env : Env) (s : State) : Event → State
  | Event.created c => onChallengeCreated c s
  | Event.deleted d => onChallengeDeleted d s
  | Event.reconciled force now payload => (fetchChallenges env force now (.ok payload) s).1

/-- The state after a sequence of events. -/
def run (env : Env) (s : State) (events : List Event) : State :=
  events.foldl (step env) s

/-- An event of the kind the uniqueness invariant is claimed for: a push
event, or a reconciliation that contacts the backend and whose payload has
pairwise distinct ids. -/
def admits (env : Env) (s : State) : Event → Bool
  | Event.created _ => true
  | Event.deleted _ => true
  | Event.reconciled force now payload =>
    decide (idsDistinct payload) &&
      !(fetchChallenges env force now (.ok payload) s).2.isEmpty

/-- Every event of the sequence is admitted in the state it arrives in. -/
def admissible (env : Env) : State → List Event → Bool
  | _, [] => true
  | s, e :: es => admits env s e && admissible env (step env s e) es

/-- A `challenge_created` event is fresh when no challenge of the list it
arrives in has its id. -/
def fresh (s : State) : Event → Bool
  | Event.created c => s.challenges.all (fun x => x._id != c._id)
  | _ => true

/-- Every event of the sequence is admitted, and fresh, in the state it
arrives in. -/
def admissibleFresh (env : Env) : State → List Event → Bool
  | _, [] => true
  | s, e :: es => admits env s e && fresh s e && admissibleFresh env (step env s e) es

/-! ## Concrete inputs -/

/-- A session opened through a share link with token `tok`. -/
def guestEnv : Env :=
  { userId := none, albumId := none, albumToken := some "tok", BASE_URL := "https://api" }

/-- Two challenges with different ids. -/
def sunset : Challenge := { _id := "c1", title := "Sunset" }

/-- The second challenge. -/
def selfie : Challenge := { _id := "c2", title := "Selfie" }

/-- A browser profile with nothing stored. -/
def emptyStorage : LocalStorage := { challenges_ := fun _ => none, lastFetch_ := fun _ => none }

/-- A browser profile whose cache for `tok` holds both challenges, fetched at
time 1000000. -/
def warmStorage : LocalStorage :=
  (emptyStorage.setChallenges "tok" [sunset, selfie]).setLastFetch "tok" 1000000

/-- A small PNG image. -/
def photo : File := { type := "image/png", size := 2048 }

/-- A PDF document. -/
def pdf : File := { type := "application/pdf", size := 2048 }

/-- A stand-in for `URL.createObjectURL`. -/
def blobUrl (_ : File) : String := "blob:preview"

/-- The state after the guest picked `photo` for the challenge `sunset`. -/
def photoPending : State := handleFileSelect blobUrl [photo] sunset (initialState emptyStorage)

end PhotoApp

namespace PhotoApp

/-! ## FileValidation: the file gate -/

/-- C1: `validateFile` returns true exactly when the declared type is one of
the ten allow-listed types and the size is at most the ceiling of its class,
the ceiling being `maxImageSizeMB*1024*1024` for a type that starts with
`image/` and `maxVideoSizeMB*1024*1024` otherwise.  In particular a type
outside the allow-list is rejected whatever the size, and an allow-listed
file is rejected exactly when its size exceeds the ceiling. -/
theorem validateFile_accepts_iff (props : Props) (file : File) :
    allowedFileTypes.length = 10 ∧
    ((validateFile props file).1 = true ↔
      file.type ∈ allowedFileTypes ∧
        file.size ≤ (if startsWith file.type "image/" then props.maxImageSizeMB * 1024 * 1024
          else props.maxVideoSizeMB * 1024 * 1024)) ∧
    (file.type ∉ allowedFileTypes → (validateFile props file).1 = false) ∧
    (file.type ∈ allowedFileTypes →
      ((validateFile props file).1 = false ↔
        file.size > (if startsWith file.type "image/" then props.maxImageSizeMB * 1024 * 1024
          else props.maxVideoSizeMB * 1024 * 1024))) := by
  refine ⟨rfl, ?_, ?_, ?_⟩
  · by_cases hmem : file.type ∈ allowedFileTypes
    · by_cases himg : startsWith file.type "image/" = true
      · by_cases hsz : file.size > props.maxImageSizeMB * 1024 * 1024
        · have : ¬ file.size ≤ props.maxImageSizeMB * 1024 * 1024 := by omega
          simp [validateFile, hmem, himg, hsz, this]
        · have : file.size ≤ props.maxImageSizeMB * 1024 * 1024 := by omega
          simp [validateFile, hmem, himg, hsz, this]
      · by_cases hsz : file.size > props.maxVideoSizeMB * 1024 * 1024
        · have : ¬ file.size ≤ props.maxVideoSizeMB * 1024 * 1024 := by omega
          simp [validateFile, hmem, himg, hsz, this]
        · have : file.size ≤ props.maxVideoSizeMB * 1024 * 1024 := by omega
          simp [validateFile, hmem, himg, hsz, this]
    · simp [validateFile, hmem]
  · intro hmem
    simp [validateFile, hmem]
  · intro hmem
    by_cases himg : startsWith file.type "image/" = true
    · by_cases hsz : file.size > props.maxImageSizeMB * 1024 * 1024 <;>
        simp [validateFile, hmem, himg, hsz]
    · by_cases hsz : file.size > props.maxVideoSizeMB * 1024 * 1024 <;>
        simp [validateFile, hmem, himg, hsz]

/-- Instance of C1 at the default ceilings: a PDF is rejected, and a PNG of
exactly 15 MB is accepted while one byte more is rejected. -/
theorem validateFile_accepts_iff_witness :
    (validateFile defaultProps ⟨"application/pdf", 1⟩).1 = false ∧
    (validateFile defaultProps ⟨"image/png", 15 * 1024 * 1024⟩).1 = true ∧
    (validateFile defaultProps ⟨"image/png", 15 * 1024 * 1024 + 1⟩).1 = false :=
  ⟨(validateFile_accepts_iff defaultProps ⟨"application/pdf", 1⟩).2.2.1 (by decide),
   (validateFile_accepts_iff defaultProps ⟨"image/png", 15 * 1024 * 1024⟩).2.1.mpr
     ⟨by decide, by decide⟩,
   ((validateFile_accepts_iff defaultProps ⟨"image/png", 15 * 1024 * 1024 + 1⟩).2.2.2
     (by decide)).mpr (by decide)⟩

/-! ## Reconciliation -/

/-- When a successful call sent a request, the state it leaves is the one of
the `try` block. -/
theorem fetchChallenges_ok_of_sent (env : Env) (force : Bool) (now : Int)
    (P : List Challenge) (s : State)
    (hsent : (fetchChallenges env force now (.ok P) s).2 ≠ []) :
    (fetchChallenges env force now (.ok P) s).1 =
      { s with
          challenges := P
          localStorage :=
            (s.localStorage.setChallenges (cacheKey env) P).setLastFetch (cacheKey env) now } := by
  cases hc : s.localStorage.challenges_ (cacheKey env) with
  | none => simp only [fetchChallenges, hc]
  | some cached =>
    by_cases hit : (!force && decide (now - toNumber (s.localStorage.lastFetch_ (cacheKey env))
        < 60000)) = true
    · exact absurd (by simp only [fetchChallenges, hc, hit, if_true]) hsent
    · simp only [fetchChallenges, hc, hit]
      rfl

/-- When a failing call sent a request, the state it leaves is the one of the
`catch` block. -/
theorem fetchChallenges_error_of_sent (env : Env) (force : Bool) (now : Int)
    (err : String) (s : State)
    (hsent : (fetchChallenges env force now (.error err) s).2 ≠ []) :
    (fetchChallenges env force now (.error err) s).1 =
      { s with errorMessage := "Error loading challenges." } := by
  cases hc : s.localStorage.challenges_ (cacheKey env) with
  | none => simp only [fetchChallenges, hc]
  | some cached =>
    by_cases hit : (!force && decide (now - toNumber (s.localStorage.lastFetch_ (cacheKey env))
        < 60000)) = true
    · exact absurd (by simp only [fetchChallenges, hc, hit, if_true]) hsent
    · simp only [fetchChallenges, hc, hit]
      rfl

/-- C2: `fetchChallenges` sends no request and sets the in-memory list to the
cached list when `force` is false, the cache holds a list for the key and
`now - fetchedAt < 60000`; when `force` is true, or nothing is cached for the
key, or `now - fetchedAt >= 60000`, it sends exactly one request.  (As in the
code's `now - lastFetch`, a missing time stamp counts as 0.) -/
theorem fetchChallenges_cache_freshness (env : Env) (force : Bool) (now : Int)
    (res : Except String (List Challenge)) (s : State) :
    (∀ cached, force = false → s.localStorage.challenges_ (cacheKey env) = some cached →
        now - toNumber (s.localStorage.lastFetch_ (cacheKey env)) < 60000 →
        (fetchChallenges env force now res s).2 = [] ∧
        (fetchChallenges env force now res s).1.challenges = cached) ∧
    ((force = true ∨ s.localStorage.challenges_ (cacheKey env) = none ∨
        now - toNumber (s.localStorage.lastFetch_ (cacheKey env)) ≥ 60000) →
        (fetchChallenges env force now res s).2.length = 1) := by
  constructor
  · intro cached hf hc hfresh
    simp [fetchChallenges, hf, hc, hfresh]
  · intro h
    cases res with
    | error e =>
      cases hc : s.localStorage.challenges_ (cacheKey env) with
      | none => simp [fetchChallenges, hc]
      | some cached =>
        rcases h with h | h | h
        · simp [fetchChallenges, hc, h]
        · simp [hc] at h
        · have : ¬ now - toNumber (s.localStorage.lastFetch_ (cacheKey env)) < 60000 := by omega
          simp [fetchChallenges, hc, this]
    | ok data =>
      cases hc : s.localStorage.challenges_ (cacheKey env) with
      | none => simp [fetchChallenges, hc]
      | some cached =>
        rcases h with h | h | h
        · simp [fetchChallenges, hc, h]
        · simp [hc] at h
        · have : ¬ now - toNumber (s.localStorage.lastFetch_ (cacheKey env)) < 60000 := by omega
          simp [fetchChallenges, hc, this]

/-- Instance of C2: with a cache entry 30 s old an unforced call sends nothing
and shows the two cached challenges; 60 s after the fetch it sends one
request. -/
theorem fetchChallenges_cache_freshness_witness :
    ((fetchChallenges guestEnv false 1030000 (.ok []) (initialState warmStorage)).2 = [] ∧
      (fetchChallenges guestEnv false 1030000 (.ok []) (initialState warmStorage)).1.challenges
        = [sunset, selfie]) ∧
    (fetchChallenges guestEnv false 1060000 (.ok []) (initialState warmStorage)).2.length = 1 :=
  ⟨(fetchChallenges_cache_freshness guestEnv false 1030000 (.ok []) (initialState warmStorage)).1
      [sunset, selfie] rfl (by decide) (by decide),
   (fetchChallenges_cache_freshness guestEnv false 1060000 (.ok []) (initialState warmStorage)).2
      (Or.inr (Or.inr (by decide)))⟩

/-- C3: a call of `fetchChallenges` that contacts the backend and succeeds with
payload `P` leaves the in-memory list equal to `P`, whatever it was before,
and overwrites the cache entry of the key with the list `P` and the time stamp
`now` of the call; the entries of other keys stay as they were. -/
theorem fetchChallenges_success_replaces (env : Env) (force : Bool) (now : Int)
    (P : List Challenge) (s : State)
    (hsent : (fetchChallenges env force now (.ok P) s).2 ≠ []) :
    (fetchChallenges env force now (.ok P) s).1.challenges = P ∧
    (fetchChallenges env force now (.ok P) s).1.localStorage.challenges_ (cacheKey env)
      = some P ∧
    (fetchChallenges env force now (.ok P) s).1.localStorage.lastFetch_ (cacheKey env)
      = some now ∧
    (∀ k, k ≠ cacheKey env →
      (fetchChallenges env force now (.ok P) s).1.localStorage.challenges_ k
          = s.localStorage.challenges_ k ∧
      (fetchChallenges env force now (.ok P) s).1.localStorage.lastFetch_ k
          = s.localStorage.lastFetch_ k) := by
  rw [fetchChallenges_ok_of_sent env force now P s hsent]
  refine ⟨rfl, ?_, ?_, ?_⟩
  · simp [LocalStorage.setChallenges, LocalStorage.setLastFetch]
  · simp [LocalStorage.setChallenges, LocalStorage.setLastFetch]
  · intro k hk
    simp [LocalStorage.setChallenges, LocalStorage.setLastFetch, hk]

/-- Instance of C3: the list holds a pushed challenge, the backend answers a
forced call with the other one only. -/
theorem fetchChallenges_success_replaces_witness :
    (fetchChallenges guestEnv true 2000000 (.ok [selfie])
        (onChallengeCreated sunset (initialState warmStorage))).1.challenges = [selfie] ∧
    (fetchChallenges guestEnv true 2000000 (.ok [selfie])
        (onChallengeCreated sunset (initialState warmStorage))).1.localStorage.challenges_ "tok"
      = some [selfie] ∧
    (fetchChallenges guestEnv true 2000000 (.ok [selfie])
        (onChallengeCreated sunset (initialState warmStorage))).1.localStorage.lastFetch_ "tok"
      = some 2000000 :=
  have h := fetchChallenges_success_replaces guestEnv true 2000000 [selfie]
    (onChallengeCreated sunset (initialState warmStorage)) (by decide)
  ⟨h.1, h.2.1, h.2.2.1⟩

/-- C4: a call of `fetchChallenges` whose backend request fails sets the error
slot to a non-empty message and leaves the cache as it was: for every key the
stored list and the stored time stamp are the same after the call as before. -/
theorem fetchChallenges_failure_keeps_cache (env : Env) (force : Bool) (now : Int)
    (err : String) (s : State)
    (hsent : (fetchChallenges env force now (.error err) s).2 ≠ []) :
    (fetchChallenges env force now (.error err) s).1.errorMessage ≠ "" ∧
    (∀ k,
      (fetchChallenges env force now (.error err) s).1.localStorage.challenges_ k
          = s.localStorage.challenges_ k ∧
      (fetchChallenges env force now (.error err) s).1.localStorage.lastFetch_ k
          = s.localStorage.lastFetch_ k) := by
  rw [fetchChallenges_error_of_sent env force now err s hsent]
  refine ⟨?_, fun k => ⟨rfl, rfl⟩⟩
  show "Error loading challenges." ≠ ""
  decide

/-- Instance of C4: a forced call fails over a warm cache. -/
theorem fetchChallenges_failure_keeps_cache_witness :
    (fetchChallenges guestEnv true 2000000 (.error "503")
        (initialState warmStorage)).1.errorMessage ≠ "" ∧
    (fetchChallenges guestEnv true 2000000 (.error "503")
        (initialState warmStorage)).1.localStorage.challenges_ "tok" = some [sunset, selfie] ∧
    (fetchChallenges guestEnv true 2000000 (.error "503")
        (initialState warmStorage)).1.localStorage.lastFetch_ "tok" = some 1000000 :=
  have h := fetchChallenges_failure_keeps_cache guestEnv true 2000000 "503"
    (initialState warmStorage) (by decide)
  ⟨h.1, (h.2 "tok").1.trans rfl, (h.2 "tok").2.trans rfl⟩

/-! ## Live updates -/

/-- C5: after `challenge_deleted` for an id the list holds no challenge with
that id and holds every other challenge of the former list, as often as before
and in the former relative order (it is a sublist); when no challenge has the
id the list is the former list. -/
theorem onChallengeDeleted_removes (d : DeletedChallenge) (s : State) :
    (∀ c ∈ (onChallengeDeleted d s).challenges, c._id ≠ d.id) ∧
    (onChallengeDeleted d s).challenges.Sublist s.challenges ∧
    (∀ c : Challenge, c._id ≠ d.id →
      (onChallengeDeleted d s).challenges.count c = s.challenges.count c) ∧
    ((∀ c ∈ s.challenges, c._id ≠ d.id) → (onChallengeDeleted d s).challenges = s.challenges) := by
  refine ⟨?_, ?_, ?_, ?_⟩
  · intro c hc
    simp only [onChallengeDeleted, List.mem_filter] at hc
    simpa using hc.2
  · exact List.filter_sublist _
  · intro c hc
    simp only [onChallengeDeleted]
    rw [List.count_filter]
    simpa using hc
  · intro h
    simp only [onChallengeDeleted]
    rw [List.filter_eq_self]
    intro c hc
    simpa using h c hc

/-- Instance of C5: deleting an id that no challenge has changes nothing. -/
theorem onChallengeDeleted_removes_witness :
    (onChallengeDeleted ⟨"c9"⟩ (onChallengeCreated sunset (initialState emptyStorage))).challenges
      = [sunset] :=
  (onChallengeDeleted_removes ⟨"c9"⟩ (onChallengeCreated sunset (initialState emptyStorage))).2.2.2
    (by decide)

/-- C6: after `challenge_created(c)` the list is the former list followed by
`c`: it is one longer, `c` is last, every former element keeps its position;
and the cache (stored lists and time stamps) is the same as before. -/
theorem onChallengeCreated_appends (c : Challenge) (s : State) :
    (onChallengeCreated c s).challenges = s.challenges ++ [c] ∧
    (onChallengeCreated c s).challenges.length = s.challenges.length + 1 ∧
    (onChallengeCreated c s).challenges.getLast? = some c ∧
    (∀ i, i < s.challenges.length →
      (onChallengeCreated c s).challenges[i]? = s.challenges[i]?) ∧
    (onChallengeCreated c s).localStorage = s.localStorage := by
  refine ⟨rfl, ?_, ?_, ?_, rfl⟩
  · simp [onChallengeCreated]
  · simp [onChallengeCreated]
  · intro i hi
    simp only [onChallengeCreated]
    exact List.getElem?_append_left hi

/-- Instance of C6: a third challenge arrives while the list holds two. -/
theorem onChallengeCreated_appends_witness :
    (onChallengeCreated ⟨"c3", "Cake"⟩
      (run guestEnv (initialState warmStorage)
        [Event.reconciled false 1030000 []])).challenges
      = [sunset, selfie, ⟨"c3", "Cake"⟩] :=
  (onChallengeCreated_appends ⟨"c3", "Cake"⟩
    (run guestEnv (initialState warmStorage) [Event.reconciled false 1030000 []])).1.trans
    (by decide)

/-! ## Uniqueness of ids in the in-memory list -/

/-- Appending a challenge whose id is new keeps the ids distinct. -/
theorem idsDistinct_created (c : Challenge) (s : State) (hs : idsDistinct s.challenges)
    (hfresh : fresh s (Event.created c) = true) :
    idsDistinct (onChallengeCreated c s).challenges := by
  simp only [fresh, List.all_eq_true] at hfresh
  simp only [idsDistinct, onChallengeCreated, List.map_append, List.map_cons, List.map_nil]
  refine List.Nodup.append hs (List.nodup_singleton _) ?_
  intro a ha hc
  simp only [List.mem_singleton] at hc
  obtain ⟨x, hx, rfl⟩ := List.mem_map.mp ha
  have := hfresh x hx
  simp [hc] at this

/-- Deleting keeps the ids distinct. -/
theorem idsDistinct_deleted (d : DeletedChallenge) (s : State)
    (hs : idsDistinct s.challenges) : idsDistinct (onChallengeDeleted d s).challenges := by
  simp only [idsDistinct, onChallengeDeleted]
  exact List.Nodup.sublist ((List.filter_sublist _).map _) hs

/-- One admitted, fresh event keeps the ids distinct. -/
theorem idsDistinct_step (env : Env) (s : State) (e : Event)
    (hs : idsDistinct s.challenges) (ha : admits env s e = true) (hf : fresh s e = true) :
    idsDistinct (step env s e).challenges := by
  cases e with
  | created c => exact idsDistinct_created c s hs hf
  | deleted d => exact idsDistinct_deleted d s hs
  | reconciled force now payload =>
    simp only [admits, Bool.and_eq_true, decide_eq_true_eq, Bool.not_eq_true_eq_eq_false,
      Bool.not_eq_eq_eq_not, Bool.not_true] at ha
    have hsent : (fetchChallenges env force now (.ok payload) s).2 ≠ [] := by
      intro h
      rw [h] at ha
      simp at ha
    simp only [step]
    rw [fetchChallenges_ok_of_sent env force now payload s hsent]
    exact ha.1

/-- Any admitted, fresh sequence of events keeps the ids distinct. -/
theorem idsDistinct_run (env : Env) (events : List Event) :
    ∀ s : State, idsDistinct s.challenges → admissibleFresh env s events = true →
      idsDistinct (run env s events).challenges := by
  induction events with
  | nil => intro s hs _; exact hs
  | cons e es ih =>
    intro s hs h
    simp only [admissibleFresh, Bool.and_eq_true] at h
    exact ih (step env s e) (idsDistinct_step env s e hs h.1.1 h.1.2) h.2

/-- C7, refuted as stated: the first fetch returns a challenge and its
`challenge_created` push arrives afterwards; every event is of the claimed
kind (the payload has distinct ids), and the list then holds the id twice. -/
theorem idsDistinct_fails_on_repeated_created :
    admissible guestEnv (initialState emptyStorage)
      [Event.reconciled true 1000000 [sunset], Event.created sunset] = true ∧
    (run guestEnv (initialState emptyStorage)
      [Event.reconciled true 1000000 [sunset], Event.created sunset]).challenges
      = [sunset, sunset] ∧
    ¬ idsDistinct (run guestEnv (initialState emptyStorage)
      [Event.reconciled true 1000000 [sunset], Event.created sunset]).challenges := by
  refine ⟨by decide, by decide, by decide⟩

/-- C7, amended: in every state reached from the empty list by
`challenge_created` events whose id no challenge of the list has at that
moment, `challenge_deleted` events, and successful reconciliations that
contact the backend and whose payloads have pairwise distinct ids, no two
challenges of the list have the same id. -/
theorem idsDistinct_of_fresh_created (env : Env) (ls : LocalStorage) (events : List Event)
    (h : admissibleFresh env (initialState ls) events = true) :
    idsDistinct (run env (initialState ls) events).challenges :=
  idsDistinct_run env events (initialState ls) (List.nodup_nil) h

/-- Instance of the amended C7 on a trace with all three kinds of event. -/
theorem idsDistinct_of_fresh_created_witness :
    admissibleFresh guestEnv (initialState emptyStorage)
      [Event.reconciled true 1000000 [sunset], Event.created selfie,
       Event.deleted ⟨"c1"⟩, Event.created sunset] = true ∧
    idsDistinct (run guestEnv (initialState emptyStorage)
      [Event.reconciled true 1000000 [sunset], Event.created selfie,
       Event.deleted ⟨"c1"⟩, Event.created sunset]).challenges :=
  ⟨by decide, idsDistinct_of_fresh_created guestEnv emptyStorage _ (by decide)⟩

/-! ## Upload -/

/-- C8, refuted as stated: with a pending submission and a share token, an
upload request that fails leaves `selectedChallenge` and `pendingFile` set. -/
theorem onUsernameSubmit_failure_keeps_pending :
    (photoPending.selectedChallenge ≠ none ∧ photoPending.pendingFile ≠ none ∧
      truthy (jsOr guestEnv.albumId guestEnv.albumToken) = true) ∧
    (onUsernameSubmit guestEnv "Alex" (.error "500") photoPending).posted.length = 1 ∧
    (onUsernameSubmit guestEnv "Alex" (.error "500") photoPending).state.pendingFile
      = some photo ∧
    (onUsernameSubmit guestEnv "Alex" (.error "500") photoPending).state.selectedChallenge
      = some { _id := "c1", title := "Sunset", imageFile := photo, imageUrl := "blob:preview" } ∧
    ¬ ((onUsernameSubmit guestEnv "Alex" (.error "500") photoPending).state.selectedChallenge
        = none ∧
      (onUsernameSubmit guestEnv "Alex" (.error "500") photoPending).state.pendingFile
        = none) := by
  refine ⟨⟨by decide, by decide, by decide⟩, by decide, by decide, by decide, by decide⟩

/-- C8, amended: from a state holding a pending submission with an album
identity present, `onUsernameSubmit` posts one upload; when the request
succeeds, `selectedChallenge` and `pendingFile` are null afterwards (and the
prompt is closed); when it fails, the error message `Upload failed.` is
surfaced and `selectedChallenge` and `pendingFile` keep their values. -/
theorem onUsernameSubmit_clears_on_success (env : Env) (username : String)
    (res : Except String Unit) (s : State) (sel : SelectedChallenge) (file : File)
    (hsel : s.selectedChallenge = some sel) (hfile : s.pendingFile = some file)
    (hid : truthy (jsOr env.albumId env.albumToken) = true) :
    (onUsernameSubmit env username res s).posted.length = 1 ∧
    (∀ u, res = .ok u →
      (onUsernameSubmit env username res s).state.selectedChallenge = none ∧
      (onUsernameSubmit env username res s).state.pendingFile = none ∧
      (onUsernameSubmit env username res s).state.isPopupVisible = false) ∧
    (∀ e, res = .error e →
      (onUsernameSubmit env username res s).state.errorMessage = "Upload failed." ∧
      (onUsernameSubmit env username res s).state.errorMessage ≠ "" ∧
      (onUsernameSubmit env username res s).state.selectedChallenge = s.selectedChallenge ∧
      (onUsernameSubmit env username res s).state.pendingFile = s.pendingFile) := by
  cases res with
  | ok u =>
    simp only [onUsernameSubmit, hsel, hfile, hid]
    simp
  | error e =>
    simp only [onUsernameSubmit, hsel, hfile, hid]
    simp

/-- Instance of the amended C8: the upload of `photo` succeeds, and fails. -/
theorem onUsernameSubmit_clears_on_success_witness :
    ((onUsernameSubmit guestEnv "Alex" (.ok ()) photoPending).state.selectedChallenge = none ∧
      (onUsernameSubmit guestEnv "Alex" (.ok ()) photoPending).state.pendingFile = none ∧
      (onUsernameSubmit guestEnv "Alex" (.ok ()) photoPending).state.isPopupVisible = false) ∧
    (onUsernameSubmit guestEnv "Alex" (.error "500") photoPending).state.errorMessage
      = "Upload failed." :=
  ⟨(onUsernameSubmit_clears_on_success guestEnv "Alex" (.ok ()) photoPending
      { _id := "c1", title := "Sunset", imageFile := photo, imageUrl := "blob:preview" } photo
      rfl rfl (by decide)).2.1 () rfl,
   ((onUsernameSubmit_clears_on_success guestEnv "Alex" (.error "500") photoPending
      { _id := "c1", title := "Sunset", imageFile := photo, imageUrl := "blob:preview" } photo
      rfl rfl (by decide)).2.2 "500" rfl).1⟩

/-- Whatever the file, `handleFileSelect` stores it as pending file, selects
the challenge and opens the prompt: it does not consult `validateFile`. -/
theorem handleFileSelect_any_file (createObjectURL : File → String) (file : File)
    (rest : List File) (challenge : Challenge) (s : State) :
    (handleFileSelect createObjectURL (file :: rest) challenge s).pendingFile = some file ∧
    (handleFileSelect createObjectURL (file :: rest) challenge s).selectedChallenge =
      some { _id := challenge._id, title := challenge.title, imageFile := file,
             imageUrl := createObjectURL file } ∧
    (handleFileSelect createObjectURL (file :: rest) challenge s).isPopupVisible = true :=
  ⟨rfl, rfl, rfl⟩

/-- C9 on the code: `validateFile` rejects a PDF and the `FileValidation`
effect does not hand it to `handleFileUpload`; but selecting the same PDF
through `handleFileSelect` stores it in `pendingFile`, sets
`selectedChallenge` and opens the prompt, and `onUsernameSubmit` then posts
it. -/
theorem handleFileSelect_accepts_rejected_file :
    (validateFile defaultProps pdf).1 = false ∧
    (fileValidationEffect defaultProps (some pdf) "").2 = [] ∧
    (handleFileSelect blobUrl [pdf] sunset (initialState emptyStorage)).pendingFile
      = some pdf ∧
    (handleFileSelect blobUrl [pdf] sunset (initialState emptyStorage)).selectedChallenge
      ≠ none ∧
    (handleFileSelect blobUrl [pdf] sunset (initialState emptyStorage)).isPopupVisible
      = true ∧
    (onUsernameSubmit guestEnv "Alex" (.ok ())
      (handleFileSelect blobUrl [pdf] sunset (initialState emptyStorage))).posted.map
        (fun r => r.mediaFile) = [pdf] := by
  refine ⟨by decide, by decide, by decide, by decide, by decide, by decide⟩

/-! ## Mount and teardown -/

/-- Teardown never changes the set of connected sockets: none of the
cleanups that `mount` hands to React disconnects one. -/
theorem unmount_keeps_sockets (env : Env) (newSocket : Nat) (now : Int)
    (res : Except String (List Challenge)) (intervalId : Nat) (s : State) :
    (unmount (mount env newSocket now res intervalId s).2
        (mount env newSocket now res intervalId s).1).connected
      = (mount env newSocket now res intervalId s).1.connected := by
  have h : (socketEffect env newSocket s).2 = none := by
    unfold socketEffect
    split <;> rfl
  simp [unmount, mount, pollEffect, runCleanup, h]

/-- C10 on the code: a session with a share token mounts; the socket 7 is
connected and the timer 3 is scheduled, and `initializeSocket` did return the
function that disconnects the socket.  The cleanups React received are none
for the socket effect and `clearInterval(3)` for the timer effect, so after
teardown the timer is gone and the socket is still connected. -/
theorem unmount_leaves_socket_connected :
    (initializeSocket 7 (initialState emptyStorage)).2 = some (Cleanup.disconnect 7) ∧
    (mount guestEnv 7 1000000 (.ok [sunset]) 3 (initialState emptyStorage)).1.connected = [7] ∧
    (mount guestEnv 7 1000000 (.ok [sunset]) 3 (initialState emptyStorage)).1.intervals = [3] ∧
    (mount guestEnv 7 1000000 (.ok [sunset]) 3 (initialState emptyStorage)).2
      = [none, some (Cleanup.clearInterval 3)] ∧
    (unmount (mount guestEnv 7 1000000 (.ok [sunset]) 3 (initialState emptyStorage)).2
      (mount guestEnv 7 1000000 (.ok [sunset]) 3 (initialState emptyStorage)).1).intervals
      = [] ∧
    (unmount (mount guestEnv 7 1000000 (.ok [sunset]) 3 (initialState emptyStorage)).2
      (mount guestEnv 7 1000000 (.ok [sunset]) 3 (initialState emptyStorage)).1).connected
      = [7] := by
  refine ⟨by decide, by decide, by decide, by decide, by decide, by decide⟩

end PhotoApp
